import Mathlib

/-
Verification of the epcgen library: the mod-97 checksum validators
(src/ibanrf.rs) and the EPC payload builder and formatter (src/epcgen.rs).

Rust strings are modelled as `List Char`.  All inputs appearing in the
claims are ASCII, where Rust's byte length `str::len` coincides with the
character count and `char::is_numeric` coincides with `Char.isDigit`;
the model adopts that reading throughout.

A Rust computation that can panic is modelled with an `Option` result,
`none` standing for the panic.  In particular `str::parse::<u128>` panics
(via `expect`) on overflow, which `transform` below makes observable.
-/

set_option maxRecDepth 100000

/-- Rust `char::is_numeric` on the ASCII fragment: a decimal digit. -/
def is_numeric (c : Char) : Bool := c.isDigit

/-- Rust `char::is_ascii_uppercase`. -/
def is_ascii_uppercase (c : Char) : Bool := 65 ≤ c.toNat && c.toNat ≤ 90

/-- Decimal digit characters of a natural number, most significant first
(Rust's integer `to_string`). -/
def natDigits (n : Nat) : List Char := Nat.toDigits 10 n

/-- Numeric value of a string of decimal digit characters. -/
def natOfDigits (s : List Char) : Nat :=
  s.foldl (fun a c => a * 10 + (c.toNat - 48)) 0

/-- Rust `str::parse::<u128>()` on the strings produced by `transform`:
succeeds exactly on a non-empty, all-digit string whose value fits in 128
bits; `none` models the `Err` that the caller turns into a panic. -/
def parse_u128 (s : List Char) : Option Nat :=
  if s ≠ [] ∧ s.all is_numeric ∧ natOfDigits s < 2 ^ 128 then some (natOfDigits s)
  else none

/-- The digit string built inside src/ibanrf.rs `transform`: move the first
4 characters to the end, keep numeric characters, and replace every other
character `c` by the decimal rendering of `c as u32 - 55`. -/
def transformDigits (s : List Char) : List Char :=
  ((s.drop 4 ++ s.take 4).map
    (fun c => if is_numeric c then [c] else natDigits (c.toNat - 55))).flatten

/-- src/ibanrf.rs `transform`.  `none` models a panic: the `expect` on
`get(0..4)` for strings shorter than 4 characters, and the `expect` on
`parse::<u128>()` when the digit string overflows 128 bits. -/
def transform (s : List Char) : Option Nat :=
  if s.length < 4 then none
  else parse_u128 (transformDigits s)

/-- Modelled from the spec (§3 transform rule): the rearranged digit string
read as an unbounded unsigned decimal integer, with no 128-bit cap. -/
def transformSpec (s : List Char) : Nat :=
  natOfDigits (transformDigits s)

/-- Rust `str::replace(" ", "")`: drop every space character. -/
def stripSpaces (s : List Char) : List Char := s.filter (fun c => c ≠ ' ')

/-- Body of src/ibanrf.rs `iban::is_valid` applied to the space-stripped
string: length in (4, 34], two uppercase ASCII letters, then digits or
uppercase ASCII, and then the mod-97 test on `transform` (whose panic
propagates as `none`). -/
def iban_checks (t : List Char) : Option Bool :=
  if t.length > 4 ∧ t.length ≤ 34
      ∧ (t.take 2).all is_ascii_uppercase
      ∧ (t.drop 2).all (fun c => is_numeric c || is_ascii_uppercase c)
  then (transform t).map (fun n => n % 97 == 1)
  else some false

/-- src/ibanrf.rs `iban::is_valid`: strips spaces, then checks. -/
def iban_is_valid (s : List Char) : Option Bool :=
  iban_checks (stripSpaces s)

/-- src/ibanrf.rs `rf::is_valid`: no stripping; length in (4, 25], literal
"RF" prefix, digits or uppercase ASCII afterwards, then the mod-97 test. -/
def rf_is_valid (s : List Char) : Option Bool :=
  if s.length > 4 ∧ s.length ≤ 25
      ∧ s.take 2 = ['R', 'F']
      ∧ (s.drop 2).all (fun c => is_numeric c || is_ascii_uppercase c)
  then (transform s).map (fun n => n % 97 == 1)
  else some false

/-! ### Data model of src/epcgen.rs -/

inductive ServiceTag
  | Bcd
deriving DecidableEq

inductive Version
  | V1
  | V2
deriving DecidableEq

inductive CharacterSet
  | UTF8
deriving DecidableEq

inductive Identification
  | Sct
  | Inst
deriving DecidableEq

inductive Purpose
  | Bene
  | Custom (code : List Char)
deriving DecidableEq

inductive Remittance
  | Reference (r : List Char)
  | Text (t : List Char)
deriving DecidableEq

inductive EpcError
  | MissingVersion
  | MissingCharacterSet
  | MissingIdentification
  | BICRequiredInConfiguredVersion
  | MissingBeneficiary
  | InvalidIBAN
  | MissingIBAN
  | InvalidAmount
  | InvalidPurpose
  | InvalidRemittanceReference
  | RemittanceTextTooLong
deriving DecidableEq

structure Epc where
  service_tag : ServiceTag
  version : Version
  character_set : CharacterSet
  identification : Identification
  bic : Option (List Char)
  beneficiary : List Char
  iban : List Char
  amount : Option (List Char)
  purpose : Option Purpose
  remittance : Option Remittance
  information : Option (List Char)
deriving DecidableEq

structure Builder where
  service_tag : ServiceTag := ServiceTag.Bcd
  version : Option Version := none
  character_set : Option CharacterSet := none
  identification : Option Identification := none
  bic : Option (List Char) := none
  beneficiary : Option (List Char) := none
  iban : Option (List Char) := none
  amount : Option (List Char) := none
  purpose : Option Purpose := none
  remittance : Option Remittance := none
  information : Option (List Char) := none
deriving DecidableEq

/-- src/epcgen.rs `Builder::new`. -/
def Builder.new : Builder := {}

/-- src/epcgen.rs `Builder::version` setter. -/
def Builder.set_version (b : Builder) (v : Version) : Builder :=
  { b with version := some v }

/-- src/epcgen.rs `Builder::character_set` setter. -/
def Builder.set_character_set (b : Builder) (c : CharacterSet) : Builder :=
  { b with character_set := some c }

/-- src/epcgen.rs `Builder::identification` setter. -/
def Builder.set_identification (b : Builder) (i : Identification) : Builder :=
  { b with identification := some i }

/-- src/epcgen.rs `Builder::bic` setter. -/
def Builder.set_bic (b : Builder) (s : List Char) : Builder :=
  { b with bic := some s }

/-- src/epcgen.rs `Builder::beneficiary` setter. -/
def Builder.set_beneficiary (b : Builder) (s : List Char) : Builder :=
  { b with beneficiary := some s }

/-- src/epcgen.rs `Builder::iban` setter: stores `iban.replace(" ", "")`. -/
def Builder.set_iban (b : Builder) (s : List Char) : Builder :=
  { b with iban := some (stripSpaces s) }

/-- src/epcgen.rs `Builder::amount` setter. -/
def Builder.set_amount (b : Builder) (s : List Char) : Builder :=
  { b with amount := some s }

/-- src/epcgen.rs `Builder::purpose` setter. -/
def Builder.set_purpose (b : Builder) (p : Purpose) : Builder :=
  { b with purpose := some p }

/-- src/epcgen.rs `Builder::remittance` setter. -/
def Builder.set_remittance (b : Builder) (r : Remittance) : Builder :=
  { b with remittance := some r }

/-- src/epcgen.rs `Builder::information` setter. -/
def Builder.set_information (b : Builder) (s : List Char) : Builder :=
  { b with information := some s }

/-! ### `Builder::build` -/

/-- Rust `str::split_once('.')`: split at the first occurrence of the dot. -/
def splitOnce (sep : Char) : List Char → Option (List Char × List Char)
  | [] => none
  | c :: cs =>
    if c = sep then some ([], cs)
    else
      match splitOnce sep cs with
      | none => none
      | some (a, b) => some (c :: a, b)

/-- Rust `str::parse` into `i128` / `i32` as reached from the amount check
in `build`: the argument contains only characters from `[0-9.]` and is at
most 9 characters long, so parsing succeeds exactly on non-empty all-digit
strings and overflow is impossible. -/
def parse_digits (s : List Char) : Option Nat :=
  if s ≠ [] ∧ s.all Char.isDigit then some (natOfDigits s) else none

/-- The two accepting guards of the amount `match` in `Builder::build`:
`(Ok(i), Ok(d)) if i == 0 && (1..=99).contains(&d)` and
`(Ok(i), Ok(d)) if (1..=999999999).contains(&i) && (0..=99).contains(&d)`;
every other parse outcome is rejected. -/
def amount_guards : Option Nat → Option Nat → Bool
  | some iv, some dv =>
    (iv == 0 && decide (1 ≤ dv ∧ dv ≤ 99)) ||
      (decide (1 ≤ iv ∧ iv ≤ 999999999) && decide (dv ≤ 99))
  | _, _ => false

/-- The `split_once('.')` stage of the amount check in `Builder::build`:
no dot rejects; otherwise the integer part must have at most 9 characters,
the fractional part exactly 2, and the parsed pair must satisfy the
guards. -/
def amount_split : Option (List Char × List Char) → Bool
  | none => false
  | some (i, d) =>
    decide (i.length ≤ 9) && d.length == 2 &&
      amount_guards (parse_digits i) (parse_digits d)

/-- The amount acceptance decision inside src/epcgen.rs `Builder::build`:
all characters in `[0-9.]`, then the `split_once` / parse stages. -/
def check_amount (a : List Char) : Bool :=
  a.all (fun c => c.isDigit || c == '.') && amount_split (splitOnce '.' a)

/-- The `Epc` value assembled at the end of a successful
`Builder::build` run. -/
def mk_epc (b : Builder) (version : Version) (character_set : CharacterSet)
    (identification : Identification) (beneficiary iban : List Char) : Epc :=
  { service_tag := b.service_tag
    version := version
    character_set := character_set
    identification := identification
    bic := b.bic
    beneficiary := beneficiary
    iban := iban
    amount := b.amount
    purpose := b.purpose
    remittance := b.remittance
    information := b.information }

/-- Remittance stage of `Builder::build`: a `Reference` must pass
`rf::is_valid` (whose panic propagates as `none`), a `Text` longer than
140 characters is rejected. -/
def check_remittance (b : Builder) (k : Epc) : Option (Except EpcError Epc) :=
  match b.remittance with
  | some (Remittance.Reference s) =>
    match rf_is_valid s with
    | none => none
    | some false => some (Except.error EpcError.InvalidRemittanceReference)
    | some true => some (Except.ok k)
  | some (Remittance.Text s) =>
    if s.length > 140 then some (Except.error EpcError.RemittanceTextTooLong)
    else some (Except.ok k)
  | none => some (Except.ok k)

/-- Purpose stage of `Builder::build`: a custom code must be exactly 4
uppercase ASCII characters. -/
def check_purpose (b : Builder) (k : Epc) : Option (Except EpcError Epc) :=
  match b.purpose with
  | some (Purpose.Custom p) =>
    if p.length ≠ 4 ∨ p.any (fun c => ¬ is_ascii_uppercase c) then
      some (Except.error EpcError.InvalidPurpose)
    else check_remittance b k
  | _ => check_remittance b k

/-- Amount stage of `Builder::build`. -/
def check_amount_stage (b : Builder) (k : Epc) : Option (Except EpcError Epc) :=
  match b.amount with
  | some a =>
    if check_amount a then check_purpose b k
    else some (Except.error EpcError.InvalidAmount)
  | none => check_purpose b k

/-- src/epcgen.rs `Builder::build`, with early returns turned into nested
matches.  `none` models the panic that `iban::is_valid` / `rf::is_valid`
can raise (u128 overflow in `transform`); every other outcome is the typed
`Result` the Rust function returns. -/
def build (b : Builder) : Option (Except EpcError Epc) :=
  match b.version with
  | none => some (Except.error EpcError.MissingVersion)
  | some version =>
    match b.character_set with
    | none => some (Except.error EpcError.MissingCharacterSet)
    | some character_set =>
      match b.identification with
      | none => some (Except.error EpcError.MissingIdentification)
      | some identification =>
        if b.bic = none ∧ version ≠ Version.V2 then
          some (Except.error EpcError.BICRequiredInConfiguredVersion)
        else
          match b.beneficiary with
          | none => some (Except.error EpcError.MissingBeneficiary)
          | some beneficiary =>
            match b.iban with
            | none => some (Except.error EpcError.MissingIBAN)
            | some iban =>
              match iban_is_valid iban with
              | none => none
              | some false => some (Except.error EpcError.InvalidIBAN)
              | some true =>
                check_amount_stage b
                  (mk_epc b version character_set identification beneficiary iban)

/-! ### `impl Display for Epc` -/

/-- Line rendered for the `ServiceTag`. -/
def service_tag_str : ServiceTag → List Char
  | ServiceTag.Bcd => "BCD".toList

/-- Line rendered for the `Version`. -/
def version_str : Version → List Char
  | Version.V1 => "001".toList
  | Version.V2 => "002".toList

/-- Line rendered for the `CharacterSet`. -/
def character_set_str : CharacterSet → List Char
  | CharacterSet.UTF8 => "1".toList

/-- Line rendered for the `Identification`. -/
def identification_str : Identification → List Char
  | Identification.Sct => "SCT".toList
  | Identification.Inst => "INST".toList

/-- Line rendered for a `Purpose`. -/
def purpose_str : Purpose → List Char
  | Purpose.Bene => "BENE".toList
  | Purpose.Custom c => c

/-- The two remittance lines of `impl Display for Epc`: a `Reference`
occupies the first line, a `Text` the second, absence leaves both empty. -/
def remittance_lines : Option Remittance → List Char × List Char
  | some (Remittance.Reference r) => (r, [])
  | some (Remittance.Text t) => ([], t)
  | none => ([], [])

/-- The twelve lines written by src/epcgen.rs `impl Display for Epc`:
nine `writeln!` lines, the remittance pair, and the final `write!` for the
information field. -/
def format_lines (e : Epc) : List (List Char) :=
  [service_tag_str e.service_tag,
   version_str e.version,
   character_set_str e.character_set,
   identification_str e.identification,
   e.bic.getD [],
   e.beneficiary,
   e.iban,
   e.amount.getD [],
   (e.purpose.map purpose_str).getD [],
   (remittance_lines e.remittance).1,
   (remittance_lines e.remittance).2,
   e.information.getD []]

/-- src/epcgen.rs `impl Display for Epc`: nine `writeln!` calls, then the
remittance `writeln!` (`"{r}\n"`, `"\n{t}"`, or `"\n"`, each followed by
the newline `writeln!` appends), then a final `write!` with no trailing
newline.  The emitted string is exactly the twelve lines of `format_lines`
interleaved with single newline characters. -/
def format (e : Epc) : List Char :=
  service_tag_str e.service_tag ++ '\n' ::
    (version_str e.version ++ '\n' ::
      (character_set_str e.character_set ++ '\n' ::
        (identification_str e.identification ++ '\n' ::
          (e.bic.getD [] ++ '\n' ::
            (e.beneficiary ++ '\n' ::
              (e.iban ++ '\n' ::
                (e.amount.getD [] ++ '\n' ::
                  ((e.purpose.map purpose_str).getD [] ++ '\n' ::
                    ((remittance_lines e.remittance).1 ++ '\n' ::
                      ((remittance_lines e.remittance).2 ++ '\n' ::
                        e.information.getD []))))))))))

/-! ### Predicates built from the claims' wording (for comparison) -/

/-- The claim's "integer part" of an amount string: the characters before
the first dot. -/
def int_part (a : List Char) : List Char := a.takeWhile (fun c => c != '.')

/-- The claim's "fractional part" of an amount string: the characters
after the first dot. -/
def frac_part (a : List Char) : List Char :=
  (a.dropWhile (fun c => c != '.')).tail

/-- Modelled from the claim's words: the rejection condition C5 states for
supplied amounts — a character outside `[0-9.]`, not exactly one dot, an
integer part of more than 9 digits, a fractional part that is not exactly
2 digits, or numeric value exactly zero. -/
def claim_amount_reject (a : List Char) : Prop :=
  (∃ c ∈ a, ¬(c.isDigit = true ∨ c = '.')) ∨
  a.count '.' ≠ 1 ∨
  9 < (int_part a).length ∨
  (frac_part a).length ≠ 2 ∨
  (natOfDigits (int_part a) = 0 ∧ natOfDigits (frac_part a) = 0)

/-- The acceptance condition the code actually implements (the amended
C5): as in `claim_amount_reject`, but an empty integer part is also
rejected (Rust's `"".parse::<i128>()` fails). -/
def amended_amount_accept (a : List Char) : Prop :=
  (∀ c ∈ a, c.isDigit = true ∨ c = '.') ∧
  a.count '.' = 1 ∧
  int_part a ≠ [] ∧
  (int_part a).length ≤ 9 ∧
  (frac_part a).length = 2 ∧
  ¬(natOfDigits (int_part a) = 0 ∧ natOfDigits (frac_part a) = 0)

instance (a : List Char) : Decidable (claim_amount_reject a) := by
  unfold claim_amount_reject
  infer_instance

instance (a : List Char) : Decidable (amended_amount_accept a) := by
  unfold amended_amount_accept
  infer_instance

/-! ### Shared concrete fixtures -/

/-- A builder that passes every stage before the amount check, with the
amount under scrutiny as the only varying field. -/
def amount_builder (a : List Char) : Builder :=
  { version := some Version.V2
    character_set := some CharacterSet.UTF8
    identification := some Identification.Sct
    beneficiary := some "Codeberg e.V.".toList
    iban := some "DE90830654080004104242".toList
    amount := some a }

/-- The payload `build (amount_builder a)` assembles when it accepts. -/
def amount_epc (a : List Char) : Epc :=
  { service_tag := ServiceTag.Bcd
    version := Version.V2
    character_set := CharacterSet.UTF8
    identification := Identification.Sct
    bic := none
    beneficiary := "Codeberg e.V.".toList
    iban := "DE90830654080004104242".toList
    amount := some a
    purpose := none
    remittance := none
    information := none }

/-- A builder that passes every stage before the remittance check, with the
remittance under scrutiny as the only varying field. -/
def remittance_builder (r : Option Remittance) : Builder :=
  { version := some Version.V2
    character_set := some CharacterSet.UTF8
    identification := some Identification.Sct
    beneficiary := some "Codeberg e.V.".toList
    iban := some "DE90830654080004104242".toList
    remittance := r }

/-- The payload `build (remittance_builder r)` assembles when it accepts. -/
def remittance_epc (r : Option Remittance) : Epc :=
  { service_tag := ServiceTag.Bcd
    version := Version.V2
    character_set := CharacterSet.UTF8
    identification := Identification.Sct
    bic := none
    beneficiary := "Codeberg e.V.".toList
    iban := "DE90830654080004104242".toList
    amount := none
    purpose := none
    remittance := r
    information := none }

/-- A builder state reachable through the public setters whose IBAN field
holds the 34-character all-letter string. -/
def panic_builder : Builder :=
  ((((Builder.new.set_version Version.V2).set_character_set
        CharacterSet.UTF8).set_identification
      Identification.Sct).set_beneficiary
    "Codeberg e.V.".toList).set_iban (List.replicate 34 'A')

/-- The concrete builder of the C9 scenario, assembled through the public
setters (so the IBAN setter's space-stripping is exercised). -/
def scenario_builder : Builder :=
  (((((((Builder.new.set_version Version.V1).set_character_set
              CharacterSet.UTF8).set_identification
            Identification.Sct).set_bic
          "GENODEF1SLR".toList).set_beneficiary
        "Codeberg e.V.".toList).set_iban
      "DE90 8306 5408 0004 1042 42".toList).set_amount
    "10.00".toList).set_remittance (Remittance.Text "for the good cause".toList)

/-- The payload the C9 scenario builds. -/
def scenario_epc : Epc :=
  { service_tag := ServiceTag.Bcd
    version := Version.V1
    character_set := CharacterSet.UTF8
    identification := Identification.Sct
    bic := some "GENODEF1SLR".toList
    beneficiary := "Codeberg e.V.".toList
    iban := "DE90830654080004104242".toList
    amount := some "10.00".toList
    purpose := none
    remittance := some (Remittance.Text "for the good cause".toList)
    information := none }

/-- A builder whose beneficiary is set to the empty string, otherwise
complete and valid. -/
def empty_beneficiary_builder : Builder :=
  ((((Builder.new.set_version Version.V2).set_character_set
        CharacterSet.UTF8).set_identification
      Identification.Sct).set_beneficiary []).set_iban
    "DE90 8306 5408 0004 1042 42".toList

/-- The payload `build empty_beneficiary_builder` produces. -/
def empty_beneficiary_epc : Epc :=
  { service_tag := ServiceTag.Bcd
    version := Version.V2
    character_set := CharacterSet.UTF8
    identification := Identification.Sct
    bic := none
    beneficiary := []
    iban := "DE90830654080004104242".toList
    amount := none
    purpose := none
    remittance := none
    information := none }

/-- A builder with no beneficiary set at all. -/
def unset_beneficiary_builder : Builder :=
  ((Builder.new.set_version Version.V2).set_character_set
      CharacterSet.UTF8).set_identification Identification.Sct

/-- A builder whose beneficiary string contains an embedded newline. -/
def newline_builder : Builder :=
  { version := some Version.V2
    character_set := some CharacterSet.UTF8
    identification := some Identification.Sct
    beneficiary := some "Code\nberg e.V.".toList
    iban := some "DE90830654080004104242".toList }

/-- The payload `build newline_builder` produces. -/
def newline_epc : Epc :=
  { service_tag := ServiceTag.Bcd
    version := Version.V2
    character_set := CharacterSet.UTF8
    identification := Identification.Sct
    bic := none
    beneficiary := "Code\nberg e.V.".toList
    iban := "DE90830654080004104242".toList
    amount := none
    purpose := none
    remittance := none
    information := none }

/-! ### Helper lemmas -/

/-- The sequential `write!` calls of the `Display` implementation produce
the `format_lines` interleaved with newlines. -/
theorem format_eq_intercalate (e : Epc) :
    format e = ['\n'].intercalate (format_lines e) := by
  simp [format, format_lines, List.intercalate, List.intersperse]

/-- `build` on `amount_builder a` comes down to the amount decision. -/
theorem build_amount_builder (a : List Char) :
    build (amount_builder a) =
      if check_amount a then some (Except.ok (amount_epc a))
      else some (Except.error EpcError.InvalidAmount) := rfl

/-- `build` on `remittance_builder r` comes down to the remittance stage. -/
theorem build_remittance_builder (r : Option Remittance) :
    build (remittance_builder r) =
      match r with
      | some (Remittance.Reference s) =>
        match rf_is_valid s with
        | none => none
        | some false => some (Except.error EpcError.InvalidRemittanceReference)
        | some true => some (Except.ok (remittance_epc r))
      | some (Remittance.Text s) =>
        if s.length > 140 then some (Except.error EpcError.RemittanceTextTooLong)
        else some (Except.ok (remittance_epc r))
      | none => some (Except.ok (remittance_epc r)) := by
  cases r with
  | none => rfl
  | some rem => cases rem <;> rfl

/-- A character accepted by `Char.isDigit` contributes at most 9 to the
decimal accumulator. -/
theorem digit_sub_le {c : Char} (h : c.isDigit = true) : c.toNat - 48 ≤ 9 := by
  simp [Char.isDigit] at h
  obtain ⟨h1, h2⟩ := h
  have h3 : c.val.toNat ≤ 57 := by
    rw [UInt32.le_def] at h2
    simpa using h2
  simp only [Char.toNat]
  omega

/-- The decimal accumulator over digit characters stays below the obvious
power-of-ten bound. -/
theorem natOfDigits_foldl_lt (s : List Char) (acc : Nat)
    (h : ∀ c ∈ s, c.isDigit = true) :
    s.foldl (fun a c => a * 10 + (c.toNat - 48)) acc < (acc + 1) * 10 ^ s.length := by
  induction s generalizing acc with
  | nil => simp
  | cons c cs ih =>
    have hc := digit_sub_le (h c (List.mem_cons_self c cs))
    have hrest : ∀ x ∈ cs, x.isDigit = true :=
      fun x hx => h x (List.mem_cons_of_mem c hx)
    have h1 := ih (acc * 10 + (c.toNat - 48)) hrest
    have h2 : (acc * 10 + (c.toNat - 48) + 1) * 10 ^ cs.length ≤
        ((acc + 1) * 10) * 10 ^ cs.length :=
      Nat.mul_le_mul_right _ (by omega)
    calc (c :: cs).foldl (fun a c => a * 10 + (c.toNat - 48)) acc
        = cs.foldl (fun a c => a * 10 + (c.toNat - 48)) (acc * 10 + (c.toNat - 48)) := rfl
      _ < (acc * 10 + (c.toNat - 48) + 1) * 10 ^ cs.length := h1
      _ ≤ ((acc + 1) * 10) * 10 ^ cs.length := h2
      _ = (acc + 1) * 10 ^ (c :: cs).length := by
          simp [List.length_cons, Nat.pow_succ]
          ring

/-- A string of digit characters denotes a value below `10 ^ length`. -/
theorem natOfDigits_lt (s : List Char) (h : ∀ c ∈ s, c.isDigit = true) :
    natOfDigits s < 10 ^ s.length := by
  have h0 := natOfDigits_foldl_lt s 0 h
  simpa [natOfDigits] using h0

/-- `split_once` finds nothing when the separator is absent. -/
theorem splitOnce_of_not_mem (sep : Char) {a : List Char} (h : sep ∉ a) :
    splitOnce sep a = none := by
  induction a with
  | nil => rfl
  | cons c cs ih =>
    have hc : ¬(c = sep) := by
      intro e
      subst e
      exact h (List.mem_cons_self c cs)
    have h' : sep ∉ cs := fun hm => h (List.mem_cons_of_mem c hm)
    simp only [splitOnce, if_neg hc, ih h']

/-- When the dot occurs, `dropWhile` stops exactly at its first
occurrence. -/
theorem dropWhile_dot {a : List Char} (h : '.' ∈ a) :
    a.dropWhile (fun c => c != '.') =
      '.' :: (a.dropWhile (fun c => c != '.')).tail := by
  induction a with
  | nil => cases h
  | cons c cs ih =>
    by_cases hc : c = '.'
    · subst hc
      simp [List.dropWhile_cons]
    · have h' : '.' ∈ cs := by
        rcases List.mem_cons.mp h with h1 | h1
        · exact absurd h1.symm hc
        · exact h1
      have hb : (c != '.') = true := by simpa [bne_iff_ne] using hc
      simpa [List.dropWhile_cons, hb] using ih h'

/-- When the dot occurs, the string decomposes into the part before the
first dot, the dot, and the part after it. -/
theorem parts_decomp {a : List Char} (h : '.' ∈ a) :
    a = int_part a ++ '.' :: frac_part a := by
  have h0 := List.takeWhile_append_dropWhile (fun c : Char => c != '.') a
  rw [dropWhile_dot h] at h0
  simpa [int_part, frac_part] using h0.symm

/-- `split_once` returns exactly the two parts around the first dot. -/
theorem splitOnce_of_mem {a : List Char} (h : '.' ∈ a) :
    splitOnce '.' a = some (int_part a, frac_part a) := by
  induction a with
  | nil => cases h
  | cons c cs ih =>
    by_cases hc : c = '.'
    · subst hc
      simp [splitOnce, int_part, frac_part, List.takeWhile_cons, List.dropWhile_cons]
    · have h' : '.' ∈ cs := by
        rcases List.mem_cons.mp h with h1 | h1
        · exact absurd h1.symm hc
        · exact h1
      have hb : (c != '.') = true := by simpa [bne_iff_ne] using hc
      simp [splitOnce, if_neg hc, ih h', int_part, frac_part,
        List.takeWhile_cons, List.dropWhile_cons, hb]

/-- The part before the first dot contains no dot. -/
theorem not_dot_mem_int_part (a : List Char) : '.' ∉ int_part a := by
  intro hmem
  have h0 := List.mem_takeWhile_imp hmem
  simp at h0

/-- A structurally and numerically valid RF reference is at most 25
characters long. -/
theorem rf_is_valid_true_length {s : List Char} (h : rf_is_valid s = some true) :
    s.length ≤ 25 := by
  unfold rf_is_valid at h
  split at h
  case isTrue hc => exact hc.2.1
  case isFalse hc => simp at h

/-- The amount decision implemented by `build` accepts exactly the strings
described by `amended_amount_accept`. -/
theorem check_amount_iff (a : List Char) :
    check_amount a = true ↔ amended_amount_accept a := by
  unfold check_amount amended_amount_accept
  constructor
  · intro h
    rw [Bool.and_eq_true] at h
    obtain ⟨h1, h2⟩ := h
    have hch : ∀ c ∈ a, c.isDigit = true ∨ c = '.' := by
      intro c hc
      have h3 := (List.all_eq_true.mp h1) c hc
      simpa using h3
    cases hsp : splitOnce '.' a with
    | none => rw [hsp] at h2; cases h2
    | some pr =>
      obtain ⟨i, d⟩ := pr
      rw [hsp] at h2
      have hmem : '.' ∈ a := by
        by_contra hnm
        rw [splitOnce_of_not_mem '.' hnm] at hsp
        cases hsp
      have hps := splitOnce_of_mem hmem
      rw [hsp] at hps
      simp only [Option.some.injEq, Prod.mk.injEq] at hps
      obtain ⟨hi, hd⟩ := hps
      subst hi
      subst hd
      simp only [amount_split, Bool.and_eq_true] at h2
      obtain ⟨⟨hl9, hl2⟩, hm⟩ := h2
      have hl9' : (int_part a).length ≤ 9 := of_decide_eq_true hl9
      have hl2' : (frac_part a).length = 2 := by simpa using hl2
      cases hpi : parse_digits (int_part a) with
      | none => rw [hpi] at hm; cases hm
      | some iv =>
        cases hpd : parse_digits (frac_part a) with
        | none => rw [hpi, hpd] at hm; cases hm
        | some dv =>
          rw [hpi, hpd] at hm
          unfold parse_digits at hpi hpd
          split at hpi
          case isFalse => cases hpi
          case isTrue hci =>
            split at hpd
            case isFalse => cases hpd
            case isTrue hcd =>
              simp only [Option.some.injEq] at hpi hpd
              have hno_i : '.' ∉ int_part a := not_dot_mem_int_part a
              have hno_d : '.' ∉ frac_part a := by
                intro hmm
                have h4 := (List.all_eq_true.mp hcd.2) '.' hmm
                simp [Char.isDigit] at h4
              have hcount : a.count '.' = 1 := by
                conv_lhs => rw [parts_decomp hmem]
                simp [List.count_append, List.count_eq_zero.mpr hno_i,
                  List.count_eq_zero.mpr hno_d]
              simp only [amount_guards, Bool.or_eq_true, Bool.and_eq_true,
                beq_iff_eq, decide_eq_true_eq] at hm
              refine ⟨hch, hcount, hci.1, hl9', hl2', ?_⟩
              rintro ⟨hiz, hdz⟩
              rcases hm with ⟨hiv0, hdv⟩ | ⟨hiv, hdv99⟩
              · omega
              · omega
  · rintro ⟨hch, hcount, hne, hl9, hl2, hval⟩
    have hmem : '.' ∈ a := by
      by_contra hnm
      rw [List.count_eq_zero.mpr hnm] at hcount
      cases hcount
    rw [Bool.and_eq_true]
    refine ⟨?_, ?_⟩
    · rw [List.all_eq_true]
      intro c hc
      simpa using hch c hc
    · rw [splitOnce_of_mem hmem]
      have hno_i : '.' ∉ int_part a := not_dot_mem_int_part a
      have hno_d : '.' ∉ frac_part a := by
        intro hmm
        have h4 : a.count '.' ≠ 1 := by
          conv_lhs => rw [parts_decomp hmem]
          have h5 : 0 < (frac_part a).count '.' := List.count_pos_iff.mpr hmm
          simp [List.count_append]
          omega
        exact h4 hcount
      have hdig_i : ∀ c ∈ int_part a, c.isDigit = true := by
        intro c hc
        have hmem_a : c ∈ a := by
          rw [parts_decomp hmem]
          exact List.mem_append_left _ hc
        rcases hch c hmem_a with h1 | h1
        · exact h1
        · exact absurd (h1 ▸ hc) hno_i
      have hdig_d : ∀ c ∈ frac_part a, c.isDigit = true := by
        intro c hc
        have hmem_a : c ∈ a := by
          rw [parts_decomp hmem]
          exact List.mem_append_right _ (List.mem_cons_of_mem _ hc)
        rcases hch c hmem_a with h1 | h1
        · exact h1
        · exact absurd (h1 ▸ hc) hno_d
      have hdne : frac_part a ≠ [] := by
        intro e
        rw [e] at hl2
        cases hl2
      have hpi : parse_digits (int_part a) = some (natOfDigits (int_part a)) := by
        unfold parse_digits
        rw [if_pos ⟨hne, List.all_eq_true.mpr hdig_i⟩]
      have hpd : parse_digits (frac_part a) = some (natOfDigits (frac_part a)) := by
        unfold parse_digits
        rw [if_pos ⟨hdne, List.all_eq_true.mpr hdig_d⟩]
      simp only [amount_split, hpi, hpd, amount_guards, Bool.and_eq_true,
        Bool.or_eq_true, beq_iff_eq, decide_eq_true_eq]
      have hivb : natOfDigits (int_part a) < 10 ^ (int_part a).length :=
        natOfDigits_lt _ hdig_i
      have hdvb : natOfDigits (frac_part a) < 100 := by
        have h6 := natOfDigits_lt (frac_part a) hdig_d
        rw [hl2] at h6
        simpa using h6
      have hiv9 : natOfDigits (int_part a) ≤ 999999999 := by
        have h7 : 10 ^ (int_part a).length ≤ 10 ^ 9 :=
          Nat.pow_le_pow_right (by omega) hl9
        omega
      refine ⟨⟨hl9, hl2⟩, ?_⟩
      by_cases hiv0 : natOfDigits (int_part a) = 0
      · left
        have hd0 : natOfDigits (frac_part a) ≠ 0 := fun e => hval ⟨hiv0, e⟩
        exact ⟨hiv0, by omega, by omega⟩
      · right
        exact ⟨⟨by omega, hiv9⟩, by omega⟩

/-! ### C1 -/

/-- C1: the claim that `iban::is_valid` and `rf::is_valid` never panic and
handle every structurally valid input up to 34 characters without numeric
overflow is violated by the code: the 34-character all-letter string
`"AAA…A"` passes every structural pre-check of `iban::is_valid`, yet its
rearranged digit string has 68 digits, `parse::<u128>()` overflows, and
the `expect` in `transform` panics (modelled as `none`). -/
theorem C1_overflow_panic :
    (List.replicate 34 'A').length > 4 ∧
    (List.replicate 34 'A').length ≤ 34 ∧
    ((List.replicate 34 'A').take 2).all is_ascii_uppercase = true ∧
    ((List.replicate 34 'A').drop 2).all
      (fun c => is_numeric c || is_ascii_uppercase c) = true ∧
    (transformDigits (List.replicate 34 'A')).length = 68 ∧
    iban_is_valid (List.replicate 34 'A') = none := by
  refine ⟨by decide, by decide, by decide, by decide, by decide, by decide⟩

/-! ### C2 -/

/-- C2: the four concrete checksum vectors of the claim do hold, but the
universally quantified characterization fails on the code: the reference
`"RF34GGGGGGGGGGGGGGGGGGGGG"` is structurally valid and its spec transform
value is congruent to 1 mod 97 (so the claim demands `rf::is_valid` return
`true`), yet the 50-digit numeral overflows `u128` and the code panics
(modelled as `none`). -/
theorem C2_vectors_and_overflow :
    iban_is_valid "DE90 8306 5408 0004 1042 42".toList = some true ∧
    iban_is_valid "DE90 8306 5408 0004 1042 43".toList = some false ∧
    rf_is_valid "RF45G72UUR".toList = some true ∧
    rf_is_valid "RF55G72UUR".toList = some false ∧
    transformSpec "RF34GGGGGGGGGGGGGGGGGGGGG".toList % 97 = 1 ∧
    2 ^ 128 ≤ transformSpec "RF34GGGGGGGGGGGGGGGGGGGGG".toList ∧
    rf_is_valid "RF34GGGGGGGGGGGGGGGGGGGGG".toList = none := by
  refine ⟨by decide, by decide, by decide, by decide, by decide, by decide,
    by decide⟩

/-! ### C3 -/

/-- C3 counterexample: `iban::is_valid` is not insensitive to arbitrary
whitespace — inserting an interior tab (a whitespace character) into a
valid IBAN makes validation fail, because the code only strips `" "`. -/
theorem C3_whitespace_counterexample :
    iban_is_valid "DE90830654080004104242".toList = some true ∧
    ('\t').isWhitespace = true ∧
    iban_is_valid "DE90\t830654080004104242".toList = some false := by
  refine ⟨by decide, by decide, by decide⟩

/-- C3 amended: `iban::is_valid` is insensitive to inserting or removing
interior space characters (it depends only on the space-stripped string),
while `rf::is_valid` performs no stripping at all — inserting a single
space into a valid RF reference makes it invalid. -/
theorem C3_space_insensitivity :
    (∀ s s' : List Char,
      stripSpaces s = stripSpaces s' → iban_is_valid s = iban_is_valid s') ∧
    rf_is_valid "RF45G72UUR".toList = some true ∧
    rf_is_valid "RF45 G72UUR".toList = some false := by
  refine ⟨?_, by decide, by decide⟩
  intro s s' h
  unfold iban_is_valid
  rw [h]

/-- Witness for C3: the space-grouped and compact spellings of the same
IBAN validate identically. -/
theorem C3_space_insensitivity_witness :
    stripSpaces "DE90 8306 5408 0004 1042 42".toList =
      stripSpaces "DE90830654080004104242".toList ∧
    iban_is_valid "DE90 8306 5408 0004 1042 42".toList =
      iban_is_valid "DE90830654080004104242".toList :=
  ⟨by decide, C3_space_insensitivity.1 _ _ (by decide)⟩

/-! ### C4 -/

/-- C4: the claim that `build()` never panics and always returns a typed
result is violated: on `panic_builder` every earlier validation stage
passes and `build` reaches `iban::is_valid`, which panics on the `u128`
overflow in `transform` (modelled as `none`) instead of returning a typed
error. -/
theorem C4_build_panics : build panic_builder = none := rfl

/-! ### C5 -/

/-- C5 counterexample: the amount `".99"` satisfies none of the claim's
rejection conditions (so the claim says it is accepted), yet `build`
rejects it with `InvalidAmount`, because `"".parse::<i128>()` fails on the
empty integer part. -/
theorem C5_claim_counterexample :
    ¬ claim_amount_reject ".99".toList ∧
    build (amount_builder ".99".toList) =
      some (Except.error EpcError.InvalidAmount) :=
  ⟨by decide, rfl⟩

/-- C5 amended: `build` rejects a supplied amount with `InvalidAmount` iff
it has a character outside `[0-9.]`, not exactly one dot, an integer part
that is empty or longer than 9 digits, a fractional part that is not
exactly 2 digits, or numeric value zero; an accepted amount is retained in
the payload as the original string.  The claim's boundary vectors hold. -/
theorem C5_amount_characterization (a : List Char) :
    (build (amount_builder a) = some (Except.error EpcError.InvalidAmount) ↔
      ¬ amended_amount_accept a) ∧
    (∀ e, build (amount_builder a) = some (Except.ok e) → e.amount = some a) ∧
    build (amount_builder "0.00".toList) =
      some (Except.error EpcError.InvalidAmount) ∧
    build (amount_builder "999999999.99".toList) =
      some (Except.ok (amount_epc "999999999.99".toList)) ∧
    build (amount_builder "1000000000.00".toList) =
      some (Except.error EpcError.InvalidAmount) ∧
    build (amount_builder "1.000".toList) =
      some (Except.error EpcError.InvalidAmount) := by
  refine ⟨?_, ?_, rfl, rfl, rfl, rfl⟩
  · rw [build_amount_builder]
    by_cases hca : check_amount a
    · rw [if_pos hca]
      constructor
      · intro he
        exact absurd he (by simp)
      · intro hna
        exact ((hna ((check_amount_iff a).mp hca)).elim)
    · rw [if_neg hca]
      constructor
      · intro _ hacc
        exact hca ((check_amount_iff a).mpr hacc)
      · intro _
        rfl
  · intro e he
    rw [build_amount_builder] at he
    by_cases hca : check_amount a
    · rw [if_pos hca] at he
      simp only [Option.some.injEq, Except.ok.injEq] at he
      subst he
      rfl
    · rw [if_neg hca] at he
      simp at he

/-- Witness for C5: instantiating the characterization at the accepted
amount `"10.00"` shows the payload keeps the original string. -/
theorem C5_amount_characterization_witness :
    (amount_epc "10.00".toList).amount = some "10.00".toList :=
  (C5_amount_characterization "10.00".toList).2.1 (amount_epc "10.00".toList) rfl

/-! ### C6 -/

/-- C6 counterexample: a builder whose beneficiary is set to the empty
string builds successfully — `build` only checks presence, not
non-emptiness. -/
theorem C6_empty_beneficiary_builds :
    build empty_beneficiary_builder = some (Except.ok empty_beneficiary_epc) := rfl

/-- C6 amended: `MissingBeneficiary` is returned only when the beneficiary
field is unset; a set-but-empty beneficiary is accepted and yields a
payload whose beneficiary name is the empty string. -/
theorem C6_beneficiary_presence_only :
    (∀ b : Builder,
      build b = some (Except.error EpcError.MissingBeneficiary) →
        b.beneficiary = none) ∧
    build empty_beneficiary_builder = some (Except.ok empty_beneficiary_epc) ∧
    empty_beneficiary_epc.beneficiary = [] := by
  refine ⟨?_, rfl, rfl⟩
  intro b h
  unfold build check_amount_stage check_purpose check_remittance at h
  repeat' split at h
  all_goals first
    | assumption
    | rfl
    | (exfalso; simp_all)

/-- Witness for C6: a builder with no beneficiary set indeed reports
`MissingBeneficiary`, and the theorem recovers that its field is unset. -/
theorem C6_beneficiary_presence_only_witness :
    unset_beneficiary_builder.beneficiary = none :=
  C6_beneficiary_presence_only.1 unset_beneficiary_builder rfl

/-! ### C7 -/

/-- C7: for a builder that passes every earlier stage, `build` returns
`InvalidRemittanceReference` exactly for a structured `Reference` that
`rf::is_valid` rejects, returns `RemittanceTextTooLong` exactly for a
`Text` longer than 140 characters, and accepts a `Reference` passing the
RF checksum (which forces its length to be at most 25 — no separate
35-character cap) as well as a `Text` of at most 140 characters. -/
theorem C7_remittance_validation (r : Option Remittance) :
    (build (remittance_builder r) =
        some (Except.error EpcError.InvalidRemittanceReference) ↔
      ∃ s, r = some (Remittance.Reference s) ∧ rf_is_valid s = some false) ∧
    (build (remittance_builder r) =
        some (Except.error EpcError.RemittanceTextTooLong) ↔
      ∃ s, r = some (Remittance.Text s) ∧ 140 < s.length) ∧
    (∀ s, r = some (Remittance.Reference s) → rf_is_valid s = some true →
      s.length ≤ 25 ∧
        build (remittance_builder r) = some (Except.ok (remittance_epc r))) ∧
    (∀ s, r = some (Remittance.Text s) → s.length ≤ 140 →
      build (remittance_builder r) = some (Except.ok (remittance_epc r))) := by
  rw [build_remittance_builder]
  cases r with
  | none =>
    refine ⟨by simp, by simp, ?_, ?_⟩
    · intro s hs
      cases hs
    · intro s hs
      cases hs
  | some rem =>
    cases rem with
    | Reference s =>
      cases hrf : rf_is_valid s with
      | none =>
        refine ⟨by simp [hrf], by simp [hrf], ?_, ?_⟩
        · intro s' hs' hvf
          simp only [Option.some.injEq, Remittance.Reference.injEq] at hs'
          subst hs'
          rw [hrf] at hvf
          cases hvf
        · intro s' hs' _
          simp at hs'
      | some b =>
        cases b with
        | false =>
          refine ⟨by simp [hrf], by simp [hrf], ?_, ?_⟩
          · intro s' hs' hvf
            simp only [Option.some.injEq, Remittance.Reference.injEq] at hs'
            subst hs'
            rw [hrf] at hvf
            cases hvf
          · intro s' hs' _
            simp at hs'
        | true =>
          refine ⟨by simp [hrf], by simp [hrf], ?_, ?_⟩
          · intro s' hs' _
            simp only [Option.some.injEq, Remittance.Reference.injEq] at hs'
            subst hs'
            exact ⟨rf_is_valid_true_length hrf, by simp [hrf]⟩
          · intro s' hs' _
            simp at hs'
    | Text s =>
      by_cases hlen : 140 < s.length
      · refine ⟨by simp [hlen], by simp [hlen], ?_, ?_⟩
        · intro s' hs' _
          simp at hs'
        · intro s' hs' hle
          simp only [Option.some.injEq, Remittance.Text.injEq] at hs'
          subst hs'
          exact absurd hle (by omega)
      · refine ⟨by simp [hlen], by simp [hlen], ?_, ?_⟩
        · intro s' hs' _
          simp at hs'
        · intro s' hs' hle
          simp [hlen]

/-- Witness for C7: a concrete valid reference is accepted and is within
the 25-character bound. -/
theorem C7_remittance_validation_witness :
    "RF45G72UUR".toList.length ≤ 25 ∧
      build (remittance_builder
          (some (Remittance.Reference "RF45G72UUR".toList))) =
        some (Except.ok (remittance_epc
          (some (Remittance.Reference "RF45G72UUR".toList)))) :=
  (C7_remittance_validation
    (some (Remittance.Reference "RF45G72UUR".toList))).2.2.1
    "RF45G72UUR".toList rfl (by decide)

/-! ### C8 -/

/-- C8 counterexample: the formatted output of a successfully built
payload has 12 lines (9 field lines, the two remittance lines, and the
information line), not 11 as claimed; with an absent remittance both
remittance lines are empty (not exactly one non-empty), and a beneficiary
containing an embedded newline even yields 13 lines. -/
theorem C8_twelve_lines_counterexample :
    build (remittance_builder none) = some (Except.ok (remittance_epc none)) ∧
    ((format (remittance_epc none)).splitOn '\n').length = 12 ∧
    (remittance_lines (remittance_epc none).remittance).1 = [] ∧
    (remittance_lines (remittance_epc none).remittance).2 = [] ∧
    build newline_builder = some (Except.ok newline_epc) ∧
    ((format newline_epc).splitOn '\n').length = 13 := by
  refine ⟨rfl, by decide, rfl, rfl, rfl, by decide⟩

/-- C8 amended: for any payload whose rendered lines contain no embedded
newline, the formatted output splits into exactly the 12 `format_lines`
(absent optional fields appearing as empty lines at their fixed
positions), at most one of the two remittance lines is non-empty
(reference first, text second), and the final line is the information
field with no terminal newline after it. -/
theorem C8_format_structure (p : Epc)
    (h : ∀ l ∈ format_lines p, '\n' ∉ l) :
    (format p).splitOn '\n' = format_lines p ∧
    ((format p).splitOn '\n').length = 12 ∧
    ¬((remittance_lines p.remittance).1 ≠ [] ∧
        (remittance_lines p.remittance).2 ≠ []) ∧
    (p.bic = none → (format_lines p)[4]? = some []) ∧
    (p.amount = none → (format_lines p)[7]? = some []) ∧
    (p.purpose = none → (format_lines p)[8]? = some []) ∧
    (p.remittance = none →
      (format_lines p)[9]? = some [] ∧ (format_lines p)[10]? = some []) ∧
    (p.information = none → (format_lines p)[11]? = some []) ∧
    (format_lines p)[11]? = some (p.information.getD []) := by
  have hsp : (format p).splitOn '\n' = format_lines p := by
    rw [format_eq_intercalate]
    exact List.splitOn_intercalate (format_lines p) '\n' h (by simp [format_lines])
  refine ⟨hsp, ?_, ?_, ?_, ?_, ?_, ?_, ?_, ?_⟩
  · rw [hsp]
    rfl
  · cases hr : p.remittance with
    | none => simp [remittance_lines]
    | some rem => cases rem <;> simp [remittance_lines]
  · intro h4
    simp [format_lines, h4]
  · intro h4
    simp [format_lines, h4]
  · intro h4
    simp [format_lines, h4]
  · intro h4
    simp [format_lines, h4, remittance_lines]
  · intro h4
    simp [format_lines, h4]
  · simp [format_lines]

/-- Witness for C8: the structure theorem applied to a concrete built
payload. -/
theorem C8_format_structure_witness :
    (format (remittance_epc none)).splitOn '\n' =
      format_lines (remittance_epc none) :=
  (C8_format_structure (remittance_epc none) (by decide)).1

/-! ### C9 -/

/-- C9: the concrete scenario builds successfully, the IBAN is stored
space-free by the setter at set-time, and in the formatted output line 7
is the stripped IBAN while line 8 is the amount string `"10.00"`. -/
theorem C9_concrete_scenario :
    scenario_builder.iban = some "DE90830654080004104242".toList ∧
    build scenario_builder = some (Except.ok scenario_epc) ∧
    ((format scenario_epc).splitOn '\n')[6]? =
      some "DE90830654080004104242".toList ∧
    ((format scenario_epc).splitOn '\n')[7]? = some "10.00".toList := by
  refine ⟨by decide, rfl, by decide, by decide⟩

/-! ### C10 -/

/-- C10: amounts with leading zeros in the integer part are accepted, and
the payload stores and serializes the original string unchanged (line 8 of
the formatted output). -/
theorem C10_leading_zero_amounts :
    build (amount_builder "00.01".toList) =
      some (Except.ok (amount_epc "00.01".toList)) ∧
    build (amount_builder "007.50".toList) =
      some (Except.ok (amount_epc "007.50".toList)) ∧
    (amount_epc "00.01".toList).amount = some "00.01".toList ∧
    ((format (amount_epc "00.01".toList)).splitOn '\n')[7]? =
      some "00.01".toList ∧
    ((format (amount_epc "007.50".toList)).splitOn '\n')[7]? =
      some "007.50".toList := by
  refine ⟨rfl, rfl, rfl, by decide, by decide⟩
